import Mathlib

/-!
Verification of the cluster assessment data collection script
(`scripts/collect_assessment_data.py`).

The script is sequential subprocess orchestration.  We embed it shallowly:
the outside world (subprocess execution, manifest-file existence, output-file
write success, wall-clock timestamps) is an oracle `Env`; the script's
observable effects (files written, commands executed, sleeps performed,
timestamps consumed) form a state `St` threaded explicitly.  Python
exceptions become `Except String`; `subprocess.run` outcomes become
`ProcOutcome`.
-/

set_option maxRecDepth 10000

namespace K8sBot

/-- The record returned by `ClusterAssessmentCollector.run_command`
(keys `command`, `returncode`, `stdout`, `stderr`, `timestamp`). -/
structure CmdResult where
  command : String
  returncode : Int
  stdout : String
  stderr : String
  timestamp : String
deriving Repr, DecidableEq

/-- Possible outcomes of one `subprocess.run` call: normal completion
(any exit code), `TimeoutExpired`, or any other launch exception
(e.g. `FileNotFoundError` for a missing binary), carrying `str(e)`. -/
inductive ProcOutcome where
  | completed (returncode : Int) (stdout stderr : String)
  | timedOut
  | launchError (msg : String)
deriving Repr, DecidableEq

/-- Observable side-effect events, in chronological order: a subprocess
invocation (argument vector and timeout seconds) or a `time.sleep`. -/
inductive Event where
  | exec (command : List String) (timeout : Nat)
  | sleep (seconds : Nat)
deriving Repr, DecidableEq

/-- One entry of the `assessment_commands` list: name, argument vector,
human description. -/
structure ProbeSpec where
  name : String
  command : List String
  description : String
deriving Repr, DecidableEq

/-- One value of the `assessments` mapping in the aggregated results:
`{description, result}`. -/
structure Assessment where
  description : String
  result : CmdResult
deriving Repr, DecidableEq

/-- The aggregated `results` dictionary serialized to
`{cluster_id}-{scenario}-comprehensive.json`.  `assessments` is an
insertion-ordered association list, as a Python dict is. -/
structure ScenarioReport where
  cluster_id : String
  scenario_type : String
  timestamp : String
  assessments : List (String × Assessment)
deriving Repr, DecidableEq

/-- Content of a file written by the script: either plain text
(per-probe flat file) or the JSON-serialized aggregated report. -/
inductive FileData where
  | text (content : String)
  | jsonReport (report : ScenarioReport)
deriving Repr, DecidableEq

/-- The world the script runs against: what each subprocess invocation
does (depending on argument vector and timeout), which paths exist,
whether opening a given output path for writing fails (`some msg` raises
an exception with that message), and the wall clock (the `n`-th call of
`datetime.now().isoformat()` returns `time n`). -/
structure Env where
  exec : List String → Nat → ProcOutcome
  fileExists : String → Bool
  writeFailure : String → Option String
  time : Nat → String

/-- Script state: files written so far (newest first, one entry per
name), the chronological event trace, and how many timestamps have been
consumed. -/
structure St where
  files : List (String × FileData)
  trace : List Event
  clock : Nat
deriving Repr

/-- Python `" ".join(command)`. -/
def joinTokens (command : List String) : String :=
  String.intercalate " " command

/-- Overwrite semantics of `open(path, "w")`: the new content replaces
any previous entry for the same name. -/
def setFile (fs : List (String × FileData)) (name : String) (d : FileData) :
    List (String × FileData) :=
  (name, d) :: fs.filter (fun p => p.1 != name)

/-- Current content of a file, if it has been written. -/
def lookupFile (fs : List (String × FileData)) (name : String) : Option FileData :=
  (fs.find? (fun p => p.1 == name)).map Prod.snd

/-- Writing a file: fails exactly when the environment says opening that
path fails, otherwise records the content (truncating any previous one). -/
def writeFile (env : Env) (st : St) (name : String) (d : FileData) :
    St × Except String Unit :=
  match env.writeFailure name with
  | some msg => (st, Except.error msg)
  | none => ({ st with files := setFile st.files name d }, Except.ok ())

/-- Record a `time.sleep(seconds)` call. -/
def sleep (st : St) (seconds : Nat) : St :=
  { st with trace := st.trace ++ [Event.sleep seconds] }

/-- Method `ClusterAssessmentCollector.run_command`: run the subprocess with
`check=False`; on `TimeoutExpired` return `-1` / `""` /
`"Command timed out"`; on any other exception return `-1` / `""` /
`str(e)`.  Never raises. -/
def run_command (env : Env) (st : St) (command : List String)
    (timeout : Nat := 60) : CmdResult × St :=
  let ts := env.time st.clock
  let st' : St :=
    { st with clock := st.clock + 1, trace := st.trace ++ [Event.exec command timeout] }
  match env.exec command timeout with
  | ProcOutcome.completed rc out err =>
      ({ command := joinTokens command, returncode := rc, stdout := out,
         stderr := err, timestamp := ts }, st')
  | ProcOutcome.timedOut =>
      ({ command := joinTokens command, returncode := -1, stdout := "",
         stderr := "Command timed out", timestamp := ts }, st')
  | ProcOutcome.launchError msg =>
      ({ command := joinTokens command, returncode := -1, stdout := "",
         stderr := msg, timestamp := ts }, st')

/-- Exit code `run_command` reports for a given outcome. -/
def outcomeReturncode : ProcOutcome → Int
  | ProcOutcome.completed rc _ _ => rc
  | ProcOutcome.timedOut => -1
  | ProcOutcome.launchError _ => -1

/-- Stdout `run_command` reports for a given outcome. -/
def outcomeStdout : ProcOutcome → String
  | ProcOutcome.completed _ out _ => out
  | ProcOutcome.timedOut => ""
  | ProcOutcome.launchError _ => ""

/-- Stderr `run_command` reports for a given outcome. -/
def outcomeStderr : ProcOutcome → String
  | ProcOutcome.completed _ _ err => err
  | ProcOutcome.timedOut => "Command timed out"
  | ProcOutcome.launchError msg => msg

theorem run_command_snd (env : Env) (st : St) (command : List String) (t : Nat) :
    (run_command env st command t).2 =
      { st with clock := st.clock + 1,
                trace := st.trace ++ [Event.exec command t] } := by
  unfold run_command
  cases env.exec command t <;> rfl

theorem run_command_fst (env : Env) (st : St) (command : List String) (t : Nat) :
    (run_command env st command t).1 =
      { command := joinTokens command,
        returncode := outcomeReturncode (env.exec command t),
        stdout := outcomeStdout (env.exec command t),
        stderr := outcomeStderr (env.exec command t),
        timestamp := env.time st.clock } := by
  unfold run_command
  cases env.exec command t <;> rfl

/-- A single-quote character, used inside one probe name. -/
def sq : String := String.singleton (Char.ofNat 39)

/-- The fixed `assessment_commands` list of the collector, in declaration
order. -/
def assessment_commands : List ProbeSpec :=
  [ { name := "cluster-info",
      command := ["kubectl", "cluster-info"],
      description := "Basic cluster information" },
    { name := "get_nodes_-o_wide",
      command := ["kubectl", "get", "nodes", "-o", "wide"],
      description := "Node status and details" },
    { name := "get_pods_--all-namespaces_--field-selector=status.phase!=Running",
      command := ["kubectl", "get", "pods", "--all-namespaces",
                  "--field-selector=status.phase!=Running"],
      description := "Non-running pods" },
    { name := "top_nodes",
      command := ["kubectl", "top", "nodes"],
      description := "Node resource usage" },
    { name := "top_pods_--all-namespaces",
      command := ["kubectl", "top", "pods", "--all-namespaces"],
      description := "Pod resource usage" },
    { name := "get_componentstatuses",
      command := ["kubectl", "get", "componentstatuses"],
      description := "Component health status" },
    { name := "get_events_--all-namespaces_--sort-by=" ++ sq ++ ".lastTimestamp" ++ sq,
      command := ["kubectl", "get", "events", "--all-namespaces",
                  "--sort-by=.lastTimestamp"],
      description := "Recent cluster events" },
    { name := "get_pods_--all-namespaces",
      command := ["kubectl", "get", "pods", "--all-namespaces", "-o", "wide"],
      description := "All pods detailed view" },
    { name := "get_services_--all-namespaces",
      command := ["kubectl", "get", "services", "--all-namespaces"],
      description := "All services" },
    { name := "get_deployments_--all-namespaces",
      command := ["kubectl", "get", "deployments", "--all-namespaces"],
      description := "All deployments" } ]

/-- Collector identity: positional `cluster_id` plus `--output-dir`. -/
structure ClusterAssessmentCollector where
  cluster_id : String
  output_dir : String
deriving Repr, DecidableEq

def stopCmd : List String := ["minikube", "stop"]

def deleteCmd : List String := ["minikube", "delete"]

def startCmd : List String :=
  ["minikube", "start", "--cpus=4", "--memory=4096", "--disk-size=20g"]

def enableMetricsCmd : List String :=
  ["minikube", "addons", "enable", "metrics-server"]

def getNodesCmd : List String := ["kubectl", "get", "nodes"]

def rolloutCmd : List String :=
  ["kubectl", "rollout", "status", "deployment", "--all-namespaces",
   "--timeout=60s"]

def deleteAllCmd : List String := ["kubectl", "delete", "all", "--all"]

/-- Method `ClusterAssessmentCollector.setup_minikube`: stop (result ignored),
delete (result ignored), start with fixed resources under a 300s timeout
(raise carrying stderr if non-zero), enable metrics-server (result
ignored), sleep 30, verify readiness with `kubectl get nodes` (raise
`"Cluster not ready after setup"` if non-zero). -/
def setup_minikube (env : Env) (st0 : St) : St × Except String Unit :=
  let r1 := run_command env st0 stopCmd
  let r2 := run_command env r1.2 deleteCmd
  let r3 := run_command env r2.2 startCmd 300
  if r3.1.returncode ≠ 0 then
    (r3.2, Except.error ("Failed to start minikube: " ++ r3.1.stderr))
  else
    let r4 := run_command env r3.2 enableMetricsCmd
    let st5 := sleep r4.2 30
    let r5 := run_command env st5 getNodesCmd
    if r5.1.returncode ≠ 0 then
      (r5.2, Except.error "Cluster not ready after setup")
    else
      (r5.2, Except.ok ())

/-- Method `ClusterAssessmentCollector.deploy_manifests`: apply each manifest
only when its path is truthy and exists (apply failure only logged),
sleep 45, then a best-effort rollout-status check.  Never raises. -/
def deploy_manifests (env : Env) (st : St)
    (deployment_file service_file : String) : St :=
  let st1 :=
    if deployment_file ≠ "" ∧ env.fileExists deployment_file then
      (run_command env st ["kubectl", "apply", "-f", deployment_file]).2
    else st
  let st2 :=
    if service_file ≠ "" ∧ env.fileExists service_file then
      (run_command env st1 ["kubectl", "apply", "-f", service_file]).2
    else st1
  let st3 := sleep st2 45
  (run_command env st3 rolloutCmd).2

/-- Path of the per-probe flat file
`{output_dir}/{cluster_id}-{scenario}-kubectl_{command_name}.txt`. -/
def flatFileName (c : ClusterAssessmentCollector)
    (scenario_type command_name : String) : String :=
  c.output_dir ++ "/" ++ c.cluster_id ++ "-" ++ scenario_type ++
    "-kubectl_" ++ command_name ++ ".txt"

/-- Exact text `save_flat_file` writes: five `#` header lines, a
`--- STDOUT ---` section, and a `--- STDERR ---` section only when
stderr is non-empty. -/
def flatFileContent (c : ClusterAssessmentCollector) (scenario_type : String)
    (result : CmdResult) : String :=
  "# Command: " ++ result.command ++ "\n" ++
  "# Timestamp: " ++ result.timestamp ++ "\n" ++
  "# Return code: " ++ toString result.returncode ++ "\n" ++
  "# Cluster ID: " ++ c.cluster_id ++ "\n" ++
  "# Scenario: " ++ scenario_type ++ "\n" ++
  "\n--- STDOUT ---\n" ++
  result.stdout ++
  (if result.stderr ≠ "" then "\n--- STDERR ---\n" ++ result.stderr else "")

/-- Method `ClusterAssessmentCollector.save_flat_file`: write one probe's
result to its flat file (an `open`/`write` failure raises). -/
def save_flat_file (c : ClusterAssessmentCollector) (env : Env) (st : St)
    (scenario_type command_name : String) (result : CmdResult) :
    St × Except String Unit :=
  writeFile env st (flatFileName c scenario_type command_name)
    (FileData.text (flatFileContent c scenario_type result))

/-- The loop body of `run_assessments`: run each probe in declaration
order via `run_command`, append its entry to the accumulated
`assessments` mapping, and immediately persist its flat file.  A probe
command failing is data; only a file-write exception aborts. -/
def runProbes (c : ClusterAssessmentCollector) (env : Env)
    (scenario_type : String) :
    List ProbeSpec → St → List (String × Assessment) →
      St × Except String (List (String × Assessment))
  | [], st, acc => (st, Except.ok acc)
  | p :: rest, st, acc =>
    let r := run_command env st p.command
    let acc' := acc ++ [(p.name, { description := p.description, result := r.1 })]
    match save_flat_file c env r.2 scenario_type p.name r.1 with
    | (st', Except.ok ()) => runProbes c env scenario_type rest st' acc'
    | (st', Except.error e) => (st', Except.error e)

/-- Path of the aggregated JSON file
`{output_dir}/{cluster_id}-{scenario}-comprehensive.json`. -/
def comprehensiveFileName (c : ClusterAssessmentCollector)
    (scenario_type : String) : String :=
  c.output_dir ++ "/" ++ c.cluster_id ++ "-" ++ scenario_type ++
    "-comprehensive.json"

/-- Method `ClusterAssessmentCollector.run_assessments`: build the results
record (timestamp first), run every probe in declaration order, then
serialize the whole report to the comprehensive JSON file. -/
def run_assessments (c : ClusterAssessmentCollector) (env : Env) (st : St)
    (scenario_type : String) : St × Except String ScenarioReport :=
  let ts := env.time st.clock
  let st1 : St := { st with clock := st.clock + 1 }
  match runProbes c env scenario_type assessment_commands st1 [] with
  | (st2, Except.error e) => (st2, Except.error e)
  | (st2, Except.ok assessments) =>
    let report : ScenarioReport :=
      { cluster_id := c.cluster_id, scenario_type := scenario_type,
        timestamp := ts, assessments := assessments }
    match writeFile env st2 (comprehensiveFileName c scenario_type)
        (FileData.jsonReport report) with
    | (st3, Except.ok ()) => (st3, Except.ok report)
    | (st3, Except.error e) => (st3, Except.error e)

/-- Method `ClusterAssessmentCollector.cleanup_cluster`: best-effort
`kubectl delete all --all`, then sleep 10. -/
def cleanup_cluster (env : Env) (st : St) : St :=
  sleep (run_command env st deleteAllCmd).2 10

/-- Method `ClusterAssessmentCollector.collect_scenario_data`: deploy, assess,
clean up.  Any exception is logged and re-raised, so on failure
`cleanup_cluster` is never reached. -/
def collect_scenario_data (c : ClusterAssessmentCollector) (env : Env)
    (st : St) (deployment_file service_file scenario_type : String) :
    St × Except String ScenarioReport :=
  let st1 := deploy_manifests env st deployment_file service_file
  match run_assessments c env st1 scenario_type with
  | (st2, Except.error e) => (st2, Except.error e)
  | (st2, Except.ok results) => (cleanup_cluster env st2, Except.ok results)

/-- Parsed CLI arguments of `main`. -/
structure Args where
  cluster_id : String
  sick_deployment : String
  sick_service : String
  healthy_deployment : String
  healthy_service : String
  output_dir : String := "assessment_data"
  skip_sick : Bool := false
  skip_healthy : Bool := false
deriving Repr

/-- State before any command has run. -/
def initialState : St := { files := [], trace := [], clock := 0 }

/-- Outcome of a whole `main` invocation: process exit code, final
observable state, and the exception message caught by the top-level
handler (if any). -/
structure MainResult where
  exitCode : Int
  finalState : St
  caught : Option String
deriving Repr

/-- Drop the report from a scenario result, keeping state and error. -/
def discardReport (r : St × Except String ScenarioReport) :
    St × Except String Unit :=
  (r.1, r.2.map (fun _ => ()))

/-- The collector `main` constructs from the parsed arguments. -/
def argsCollector (args : Args) : ClusterAssessmentCollector :=
  { cluster_id := args.cluster_id, output_dir := args.output_dir }

/-- Function `main`: build the collector, set up minikube, collect the sick then
the healthy scenario (each skippable), all inside one try/except that
turns any exception into exit code 1. -/
def main (env : Env) (args : Args) : MainResult :=
  match setup_minikube env initialState with
  | (st1, Except.error e) => { exitCode := 1, finalState := st1, caught := some e }
  | (st1, Except.ok ()) =>
    match (if args.skip_sick then (st1, Except.ok ())
           else discardReport (collect_scenario_data (argsCollector args) env st1
             args.sick_deployment args.sick_service "sick")) with
    | (st2, Except.error e) => { exitCode := 1, finalState := st2, caught := some e }
    | (st2, Except.ok ()) =>
      match (if args.skip_healthy then (st2, Except.ok ())
             else discardReport (collect_scenario_data (argsCollector args) env st2
               args.healthy_deployment args.healthy_service "healthy")) with
      | (st3, Except.error e) => { exitCode := 1, finalState := st3, caught := some e }
      | (st3, Except.ok ()) => { exitCode := 0, finalState := st3, caught := none }

/-- The cluster-setup step of `main`. -/
def setupPhase (env : Env) : St × Except String Unit :=
  setup_minikube env initialState

/-- The sick-scenario collection of `main` (as run when not skipped). -/
def sickPhase (env : Env) (args : Args) : St × Except String ScenarioReport :=
  collect_scenario_data (argsCollector args) env (setupPhase env).1
    args.sick_deployment args.sick_service "sick"

/-- State after the sick step of `main` (on the success path). -/
def afterSick (env : Env) (args : Args) : St :=
  if args.skip_sick then (setupPhase env).1 else (sickPhase env args).1

/-- The healthy-scenario collection of `main` (as run when not skipped). -/
def healthyPhase (env : Env) (args : Args) : St × Except String ScenarioReport :=
  collect_scenario_data (argsCollector args) env (afterSick env args)
    args.healthy_deployment args.healthy_service "healthy"

/-- Cluster setup completed without raising. -/
def setupOk (env : Env) : Prop := (setupPhase env).2 = Except.ok ()

/-- The sick scenario is disabled, or its collection completed without
an uncaught exception. -/
def sickOk (env : Env) (args : Args) : Prop :=
  args.skip_sick = true ∨ ∃ r, (sickPhase env args).2 = Except.ok r

/-- The healthy scenario is disabled, or its collection completed
without an uncaught exception. -/
def healthyOk (env : Env) (args : Args) : Prop :=
  args.skip_healthy = true ∨ ∃ r, (healthyPhase env args).2 = Except.ok r

/-! ### File-store lemmas -/

theorem lookupFile_setFile_self (fs : List (String × FileData)) (n : String)
    (d : FileData) : lookupFile (setFile fs n d) n = some d := by
  simp [lookupFile, setFile, List.find?_cons_of_pos]

theorem find?_filter_ne (fs : List (String × FileData)) (n m : String)
    (h : m ≠ n) :
    (fs.filter (fun p => p.1 != n)).find? (fun p => p.1 == m) =
      fs.find? (fun p => p.1 == m) := by
  have hnm : ¬(n = m) := fun hc => h hc.symm
  induction fs with
  | nil => rfl
  | cons a t ih =>
    by_cases ha : a.1 = n
    · have h1 : List.filter (fun p => p.1 != n) (a :: t) =
          List.filter (fun p => p.1 != n) t := by
        simp [List.filter_cons, ha]
      have h2 : List.find? (fun p => p.1 == m) (a :: t) =
          List.find? (fun p => p.1 == m) t := by
        rw [List.find?_cons_of_neg]
        simp [ha, hnm]
      rw [h1, h2, ih]
    · have h1 : List.filter (fun p => p.1 != n) (a :: t) =
          a :: List.filter (fun p => p.1 != n) t := by
        simp [List.filter_cons, ha]
      by_cases ham : a.1 = m
      · rw [h1, List.find?_cons_of_pos, List.find?_cons_of_pos] <;> simp [ham]
      · rw [h1, List.find?_cons_of_neg, List.find?_cons_of_neg, ih] <;> simp [ham]

theorem lookupFile_setFile_ne (fs : List (String × FileData)) (n m : String)
    (d : FileData) (h : m ≠ n) :
    lookupFile (setFile fs n d) m = lookupFile fs m := by
  have hn : (n == m) = false := by
    simp
    exact fun hc => h hc.symm
  simp [lookupFile, setFile, List.find?_cons, hn, find?_filter_ne fs n m h]

theorem setFile_names (fs : List (String × FileData)) (n : String) (d : FileData) :
    (setFile fs n d).map Prod.fst =
      n :: (fs.map Prod.fst).filter (fun m => m != n) := by
  simp only [setFile, List.map_cons, List.cons.injEq, true_and]
  induction fs with
  | nil => rfl
  | cons a t ih =>
    by_cases ha : a.1 = n
    · simp [List.filter_cons, ha, ih]
    · simp [List.filter_cons, ha, ih]

theorem lookupFile_isSome_of_mem (fs : List (String × FileData)) (n : String)
    (h : n ∈ fs.map Prod.fst) : ∃ d, lookupFile fs n = some d := by
  induction fs with
  | nil => simp at h
  | cons a t ih =>
    by_cases ha : a.1 = n
    · exact ⟨a.2, by simp [lookupFile, List.find?_cons, ha]⟩
    · have : n ∈ t.map Prod.fst := by
        rcases List.mem_cons.mp h with h1 | h1
        · exact absurd h1.symm ha
        · exact h1
      obtain ⟨d, hd⟩ := ih this
      refine ⟨d, ?_⟩
      have hne : (a.1 == n) = false := by simp [ha]
      simpa [lookupFile, List.find?_cons, hne] using hd

/-- Effect of one overwriting write on the set of file names. -/
def insertName (ns : List String) (n : String) : List String :=
  n :: ns.filter (fun m => m != n)

theorem setFile_names_insert (fs : List (String × FileData)) (n : String)
    (d : FileData) :
    (setFile fs n d).map Prod.fst = insertName (fs.map Prod.fst) n :=
  setFile_names fs n d

theorem mem_insertName_self (ns : List String) (n : String) :
    n ∈ insertName ns n := by
  simp [insertName]

theorem mem_insertName_of_mem (ns : List String) (n m : String)
    (h : m ∈ ns) : m ∈ insertName ns n := by
  by_cases hm : m = n
  · simp [insertName, hm]
  · simp only [insertName, List.mem_cons]
    right
    simp [List.mem_filter, h, hm]

/-! ### Derived `run_command` lemmas -/

theorem run_command_files (env : Env) (st : St) (command : List String) (t : Nat) :
    (run_command env st command t).2.files = st.files := by
  rw [run_command_snd]

theorem run_command_clock (env : Env) (st : St) (command : List String) (t : Nat) :
    (run_command env st command t).2.clock = st.clock + 1 := by
  rw [run_command_snd]

theorem run_command_trace (env : Env) (st : St) (command : List String) (t : Nat) :
    (run_command env st command t).2.trace = st.trace ++ [Event.exec command t] := by
  rw [run_command_snd]

/-! ### `setup_minikube` characterization -/

theorem setup_minikube_spec (env : Env) (st : St) :
    (setup_minikube env st).1.files = st.files ∧
    (if outcomeReturncode (env.exec startCmd 300) = 0 then
       (setup_minikube env st).1.trace = st.trace ++
         [Event.exec stopCmd 60, Event.exec deleteCmd 60, Event.exec startCmd 300,
          Event.exec enableMetricsCmd 60, Event.sleep 30, Event.exec getNodesCmd 60] ∧
       (setup_minikube env st).2 =
         (if outcomeReturncode (env.exec getNodesCmd 60) = 0 then Except.ok ()
          else Except.error "Cluster not ready after setup")
     else
       (setup_minikube env st).1.trace = st.trace ++
         [Event.exec stopCmd 60, Event.exec deleteCmd 60, Event.exec startCmd 300] ∧
       (setup_minikube env st).2 =
         Except.error ("Failed to start minikube: " ++
           outcomeStderr (env.exec startCmd 300))) := by
  simp only [setup_minikube, run_command_fst, run_command_snd, sleep]
  by_cases h1 : outcomeReturncode (env.exec startCmd 300) = 0
  · by_cases h2 : outcomeReturncode (env.exec getNodesCmd 60) = 0
    · simp [h1, h2, List.append_assoc]
    · simp [h1, h2, List.append_assoc]
  · simp [h1, List.append_assoc]

/-! ### `deploy_manifests` and `cleanup_cluster` characterization -/

theorem deploy_manifests_spec (env : Env) (st : St) (d s : String) :
    (deploy_manifests env st d s).files = st.files ∧
    (deploy_manifests env st d s).trace = st.trace ++
      ((if d ≠ "" ∧ env.fileExists d then
          [Event.exec ["kubectl", "apply", "-f", d] 60] else []) ++
       (if s ≠ "" ∧ env.fileExists s then
          [Event.exec ["kubectl", "apply", "-f", s] 60] else []) ++
       [Event.sleep 45, Event.exec rolloutCmd 60]) := by
  simp only [deploy_manifests, sleep]
  by_cases h1 : d ≠ "" ∧ env.fileExists d
  · by_cases h2 : s ≠ "" ∧ env.fileExists s
    · simp [h1, h2, run_command_snd, List.append_assoc]
    · simp [h1, h2, run_command_snd, List.append_assoc]
  · by_cases h2 : s ≠ "" ∧ env.fileExists s
    · simp [h1, h2, run_command_snd, List.append_assoc]
    · simp [h1, h2, run_command_snd, List.append_assoc]

theorem cleanup_cluster_spec (env : Env) (st : St) :
    (cleanup_cluster env st).files = st.files ∧
    (cleanup_cluster env st).trace = st.trace ++
      [Event.exec deleteAllCmd 60, Event.sleep 10] ∧
    (cleanup_cluster env st).clock = st.clock + 1 := by
  simp [cleanup_cluster, sleep, run_command_snd, List.append_assoc]

/-! ### `runProbes` lemmas -/

theorem save_flat_file_ok (c : ClusterAssessmentCollector) (env : Env) (st : St)
    (s n : String) (r : CmdResult)
    (hw : env.writeFailure (flatFileName c s n) = none) :
    save_flat_file c env st s n r =
      (⟨setFile st.files (flatFileName c s n)
          (FileData.text (flatFileContent c s r)), st.trace, st.clock⟩,
       Except.ok ()) := by
  simp [save_flat_file, writeFile, hw]

theorem runProbes_cons_ok (c : ClusterAssessmentCollector) (env : Env)
    (s : String) (p : ProbeSpec) (rest : List ProbeSpec) (st : St)
    (acc : List (String × Assessment))
    (hw : env.writeFailure (flatFileName c s p.name) = none) :
    runProbes c env s (p :: rest) st acc =
      runProbes c env s rest
        { files := setFile st.files (flatFileName c s p.name)
            (FileData.text (flatFileContent c s (run_command env st p.command).1)),
          trace := st.trace ++ [Event.exec p.command 60],
          clock := st.clock + 1 }
        (acc ++ [(p.name, { description := p.description,
                            result := (run_command env st p.command).1 })]) := by
  simp only [runProbes, save_flat_file, writeFile, hw, run_command_snd]

theorem runProbes_spec (c : ClusterAssessmentCollector) (env : Env) (s : String)
    (hw : ∀ n, env.writeFailure n = none) :
    ∀ (probes : List ProbeSpec) (st : St) (acc : List (String × Assessment)),
      ∃ l,
        (runProbes c env s probes st acc).2 = Except.ok (acc ++ l) ∧
        l.map Prod.fst = probes.map ProbeSpec.name ∧
        (runProbes c env s probes st acc).1.trace =
          st.trace ++ probes.map (fun p => Event.exec p.command 60) ∧
        (runProbes c env s probes st acc).1.clock = st.clock + probes.length ∧
        (runProbes c env s probes st acc).1.files.map Prod.fst =
          probes.foldl (fun ns p => insertName ns (flatFileName c s p.name))
            (st.files.map Prod.fst) := by
  intro probes
  induction probes with
  | nil =>
    intro st acc
    exact ⟨[], by simp [runProbes], by simp, by simp [runProbes],
      by simp [runProbes], by simp [runProbes]⟩
  | cons p rest ih =>
    intro st acc
    rw [runProbes_cons_ok c env s p rest st acc (hw _)]
    obtain ⟨l, h1, h2, h3, h4, h5⟩ :=
      ih { files := setFile st.files (flatFileName c s p.name)
             (FileData.text (flatFileContent c s (run_command env st p.command).1)),
           trace := st.trace ++ [Event.exec p.command 60],
           clock := st.clock + 1 }
         (acc ++ [(p.name, { description := p.description,
                             result := (run_command env st p.command).1 })])
    refine ⟨(p.name, { description := p.description,
                       result := (run_command env st p.command).1 }) :: l,
      ?_, ?_, ?_, ?_, ?_⟩
    · rw [h1]; simp
    · simp [h2]
    · rw [h3]; simp [List.append_assoc]
    · rw [h4]
      show st.clock + 1 + rest.length = st.clock + (p :: rest).length
      simp [List.length_cons]
      omega
    · rw [h5]
      rw [List.foldl_cons]
      rw [show (setFile st.files (flatFileName c s p.name)
            (FileData.text (flatFileContent c s (run_command env st p.command).1))).map
              Prod.fst = insertName (st.files.map Prod.fst) (flatFileName c s p.name)
          from setFile_names_insert _ _ _]

theorem mem_foldl_insertName (f : ProbeSpec → String) :
    ∀ (probes : List ProbeSpec) (init : List String) (n : String),
      (n ∈ init ∨ ∃ p ∈ probes, f p = n) →
      n ∈ probes.foldl (fun ns p => insertName ns (f p)) init := by
  intro probes
  induction probes with
  | nil =>
    intro init n h
    rcases h with h | ⟨p, hp, _⟩
    · exact h
    · simp at hp
  | cons q rest ih =>
    intro init n h
    rw [List.foldl_cons]
    apply ih
    rcases h with h | ⟨p, hp, hf⟩
    · exact Or.inl (mem_insertName_of_mem _ _ _ h)
    · rcases List.mem_cons.mp hp with rfl | hp'
      · exact Or.inl (hf ▸ mem_insertName_self init (f p))
      · exact Or.inr ⟨p, hp', hf⟩

theorem writeFile_ok (env : Env) (st : St) (n : String) (d : FileData)
    (h : env.writeFailure n = none) :
    writeFile env st n d =
      ({ st with files := setFile st.files n d }, Except.ok ()) := by
  simp [writeFile, h]

theorem writeFile_error (env : Env) (st : St) (n : String) (d : FileData)
    (msg : String) (h : env.writeFailure n = some msg) :
    writeFile env st n d = (st, Except.error msg) := by
  simp [writeFile, h]

theorem runProbes_cons_error (c : ClusterAssessmentCollector) (env : Env)
    (s : String) (p : ProbeSpec) (rest : List ProbeSpec) (st : St)
    (acc : List (String × Assessment)) (msg : String)
    (hw : env.writeFailure (flatFileName c s p.name) = some msg) :
    runProbes c env s (p :: rest) st acc =
      ({ st with clock := st.clock + 1,
                 trace := st.trace ++ [Event.exec p.command 60] },
       Except.error msg) := by
  simp only [runProbes, save_flat_file, writeFile, hw, run_command_snd]

/-- Whatever happens (including a file-write failure aborting the loop),
the events `runProbes` adds to the trace are probe invocations only. -/
theorem runProbes_trace_sub (c : ClusterAssessmentCollector) (env : Env)
    (s : String) :
    ∀ (probes : List ProbeSpec) (st : St) (acc : List (String × Assessment)),
      ∃ tr', (runProbes c env s probes st acc).1.trace = st.trace ++ tr' ∧
        ∀ ev ∈ tr', ∃ p ∈ probes, ev = Event.exec p.command 60 := by
  intro probes
  induction probes with
  | nil =>
    intro st acc
    exact ⟨[], by simp [runProbes], by simp⟩
  | cons p rest ih =>
    intro st acc
    rcases hwf : env.writeFailure (flatFileName c s p.name) with _ | msg
    · rw [runProbes_cons_ok c env s p rest st acc hwf]
      obtain ⟨tr', h1, h2⟩ :=
        ih { files := setFile st.files (flatFileName c s p.name)
               (FileData.text (flatFileContent c s (run_command env st p.command).1)),
             trace := st.trace ++ [Event.exec p.command 60],
             clock := st.clock + 1 }
           (acc ++ [(p.name, { description := p.description,
                               result := (run_command env st p.command).1 })])
      refine ⟨Event.exec p.command 60 :: tr', ?_, ?_⟩
      · rw [h1]; simp
      · intro ev hev
        rcases List.mem_cons.mp hev with rfl | hev'
        · exact ⟨p, List.mem_cons_self p rest, rfl⟩
        · obtain ⟨q, hq, hq'⟩ := h2 ev hev'
          exact ⟨q, List.mem_cons_of_mem p hq, hq'⟩
    · rw [runProbes_cons_error c env s p rest st acc msg hwf]
      refine ⟨[Event.exec p.command 60], rfl, ?_⟩
      intro ev hev
      rcases List.mem_singleton.mp hev with rfl
      exact ⟨p, List.mem_cons_self p rest, rfl⟩

/-! ### `run_assessments` characterization -/

theorem run_assessments_eq_of_probes (c : ClusterAssessmentCollector)
    (env : Env) (st : St) (s : String) (stP : St)
    (l : List (String × Assessment))
    (hP : runProbes c env s assessment_commands
        ⟨st.files, st.trace, st.clock + 1⟩ [] = (stP, Except.ok l))
    (hw : env.writeFailure (comprehensiveFileName c s) = none) :
    run_assessments c env st s =
      (⟨setFile stP.files (comprehensiveFileName c s)
          (FileData.jsonReport ⟨c.cluster_id, s, env.time st.clock, l⟩),
        stP.trace, stP.clock⟩,
       Except.ok ⟨c.cluster_id, s, env.time st.clock, l⟩) := by
  simp only [run_assessments]
  rw [hP]
  simp only [writeFile_ok env stP (comprehensiveFileName c s) _ hw]

theorem run_assessments_eq_of_probes_error (c : ClusterAssessmentCollector)
    (env : Env) (st : St) (s : String) (stP : St) (e : String)
    (hP : runProbes c env s assessment_commands
        ⟨st.files, st.trace, st.clock + 1⟩ [] = (stP, Except.error e)) :
    run_assessments c env st s = (stP, Except.error e) := by
  simp only [run_assessments]
  rw [hP]

theorem run_assessments_spec (c : ClusterAssessmentCollector) (env : Env)
    (st : St) (s : String) (hw : ∀ n, env.writeFailure n = none) :
    ∃ report,
      (run_assessments c env st s).2 = Except.ok report ∧
      report.cluster_id = c.cluster_id ∧
      report.scenario_type = s ∧
      report.assessments.map Prod.fst = assessment_commands.map ProbeSpec.name ∧
      (run_assessments c env st s).1.trace =
        st.trace ++ assessment_commands.map (fun p => Event.exec p.command 60) ∧
      (run_assessments c env st s).1.clock =
        st.clock + 1 + assessment_commands.length ∧
      lookupFile (run_assessments c env st s).1.files
        (comprehensiveFileName c s) = some (FileData.jsonReport report) ∧
      (run_assessments c env st s).1.files.map Prod.fst =
        insertName (assessment_commands.foldl
          (fun ns p => insertName ns (flatFileName c s p.name))
          (st.files.map Prod.fst)) (comprehensiveFileName c s) ∧
      (∀ p ∈ assessment_commands, ∃ d,
        lookupFile (run_assessments c env st s).1.files
          (flatFileName c s p.name) = some d) := by
  obtain ⟨l, h1, h2, h3, h4, h5⟩ :=
    runProbes_spec c env s hw assessment_commands
      ⟨st.files, st.trace, st.clock + 1⟩ []
  rcases hP : runProbes c env s assessment_commands
      ⟨st.files, st.trace, st.clock + 1⟩ [] with ⟨stP, res⟩
  rw [hP] at h1 h3 h4 h5
  simp only at h1 h3 h4 h5
  rw [List.nil_append] at h1
  subst h1
  have heq := run_assessments_eq_of_probes c env st s stP l hP (hw _)
  refine ⟨⟨c.cluster_id, s, env.time st.clock, l⟩, ?_, rfl, rfl, h2, ?_, ?_, ?_, ?_, ?_⟩
  · rw [heq]
  · rw [heq]; exact h3
  · rw [heq]; simpa using h4
  · rw [heq]
    exact lookupFile_setFile_self _ _ _
  · rw [heq]
    show (setFile stP.files (comprehensiveFileName c s) _).map Prod.fst = _
    rw [setFile_names_insert, h5]
  · intro p hp
    rw [heq]
    apply lookupFile_isSome_of_mem
    rw [setFile_names_insert, h5]
    apply mem_insertName_of_mem
    exact mem_foldl_insertName _ assessment_commands _ _
      (Or.inr ⟨p, hp, rfl⟩)

/-- Even on a failed run, `run_assessments` only adds probe invocations
to the trace (the JSON write adds no event). -/
theorem run_assessments_trace_sub (c : ClusterAssessmentCollector)
    (env : Env) (st : St) (s : String) :
    ∃ tr', (run_assessments c env st s).1.trace = st.trace ++ tr' ∧
      ∀ ev ∈ tr', ∃ p ∈ assessment_commands, ev = Event.exec p.command 60 := by
  obtain ⟨tr', h1, h2⟩ :=
    runProbes_trace_sub c env s assessment_commands
      ⟨st.files, st.trace, st.clock + 1⟩ []
  rcases hP : runProbes c env s assessment_commands
      ⟨st.files, st.trace, st.clock + 1⟩ [] with ⟨stP, res⟩
  rw [hP] at h1
  simp only at h1
  rcases res with e | l
  · rw [run_assessments_eq_of_probes_error c env st s stP e hP]
    exact ⟨tr', h1, h2⟩
  · rcases hwf : env.writeFailure (comprehensiveFileName c s) with _ | msg
    · rw [run_assessments_eq_of_probes c env st s stP l hP hwf]
      exact ⟨tr', h1, h2⟩
    · have : run_assessments c env st s = (stP, Except.error msg) := by
        simp only [run_assessments]
        rw [hP]
        simp only [writeFile_error env stP (comprehensiveFileName c s) _ msg hwf]
      rw [this]
      exact ⟨tr', h1, h2⟩

/-! ### Insensitivity of a run to previously written files -/

/-- Probe results, the trace, the clock, and the content finally stored
under each probe's flat-file name do not depend on the files already
present when the loop starts; names not written keep their prior
content. -/
theorem runProbes_indep (c : ClusterAssessmentCollector) (env : Env)
    (s : String) (hw : ∀ n, env.writeFailure n = none) :
    ∀ (probes : List ProbeSpec) (tr : List Event) (cl : Nat)
      (acc : List (String × Assessment)) (fs fs' : List (String × FileData)),
      (runProbes c env s probes ⟨fs, tr, cl⟩ acc).2 =
        (runProbes c env s probes ⟨fs', tr, cl⟩ acc).2 ∧
      (runProbes c env s probes ⟨fs, tr, cl⟩ acc).1.trace =
        (runProbes c env s probes ⟨fs', tr, cl⟩ acc).1.trace ∧
      (runProbes c env s probes ⟨fs, tr, cl⟩ acc).1.clock =
        (runProbes c env s probes ⟨fs', tr, cl⟩ acc).1.clock ∧
      ∀ n : String,
        (n ∈ probes.map (fun p => flatFileName c s p.name) →
          lookupFile (runProbes c env s probes ⟨fs, tr, cl⟩ acc).1.files n =
          lookupFile (runProbes c env s probes ⟨fs', tr, cl⟩ acc).1.files n) ∧
        (n ∉ probes.map (fun p => flatFileName c s p.name) →
          lookupFile (runProbes c env s probes ⟨fs, tr, cl⟩ acc).1.files n =
            lookupFile fs n ∧
          lookupFile (runProbes c env s probes ⟨fs', tr, cl⟩ acc).1.files n =
            lookupFile fs' n) := by
  intro probes
  induction probes with
  | nil =>
    intro tr cl acc fs fs'
    refine ⟨rfl, rfl, rfl, ?_⟩
    intro n
    exact ⟨fun h => by simp at h, fun _ => ⟨rfl, rfl⟩⟩
  | cons p rest ih =>
    intro tr cl acc fs fs'
    have hres : (run_command env ⟨fs', tr, cl⟩ p.command).1 =
        (run_command env ⟨fs, tr, cl⟩ p.command).1 := by
      rw [run_command_fst, run_command_fst]
    rw [runProbes_cons_ok c env s p rest ⟨fs, tr, cl⟩ acc (hw _),
        runProbes_cons_ok c env s p rest ⟨fs', tr, cl⟩ acc (hw _), hres]
    obtain ⟨hA, hB, hC, hD⟩ :=
      ih (tr ++ [Event.exec p.command 60]) (cl + 1)
        (acc ++ [(p.name, { description := p.description,
                            result := (run_command env ⟨fs, tr, cl⟩ p.command).1 })])
        (setFile fs (flatFileName c s p.name)
          (FileData.text (flatFileContent c s (run_command env ⟨fs, tr, cl⟩ p.command).1)))
        (setFile fs' (flatFileName c s p.name)
          (FileData.text (flatFileContent c s (run_command env ⟨fs, tr, cl⟩ p.command).1)))
    refine ⟨hA, hB, hC, ?_⟩
    intro n
    constructor
    · intro hn
      by_cases hr : n ∈ rest.map (fun p => flatFileName c s p.name)
      · exact (hD n).1 hr
      · have hnp : n = flatFileName c s p.name := by
          rw [List.map_cons, List.mem_cons] at hn
          rcases hn with h | h
          · exact h
          · exact absurd h hr
        obtain ⟨hx, hy⟩ := (hD n).2 hr
        rw [hx, hy, hnp, lookupFile_setFile_self, lookupFile_setFile_self]
    · intro hn
      have hr : n ∉ rest.map (fun p => flatFileName c s p.name) := by
        intro hc
        exact hn (by simp [hc])
      have hnp : n ≠ flatFileName c s p.name := by
        intro hc
        exact hn (by simp [hc])
      obtain ⟨hx, hy⟩ := (hD n).2 hr
      rw [hx, hy, lookupFile_setFile_ne _ _ _ _ hnp,
          lookupFile_setFile_ne _ _ _ _ hnp]
      exact ⟨rfl, rfl⟩

/-- A whole `run_assessments` call: result, trace, clock, and the final
content under every output filename are insensitive to the files already
present at the start of the call. -/
theorem run_assessments_indep (c : ClusterAssessmentCollector) (env : Env)
    (s : String) (hw : ∀ n, env.writeFailure n = none)
    (tr : List Event) (cl : Nat) (fs fs' : List (String × FileData)) :
    (run_assessments c env ⟨fs, tr, cl⟩ s).2 =
      (run_assessments c env ⟨fs', tr, cl⟩ s).2 ∧
    (run_assessments c env ⟨fs, tr, cl⟩ s).1.trace =
      (run_assessments c env ⟨fs', tr, cl⟩ s).1.trace ∧
    (run_assessments c env ⟨fs, tr, cl⟩ s).1.clock =
      (run_assessments c env ⟨fs', tr, cl⟩ s).1.clock ∧
    ∀ n : String,
      (n = comprehensiveFileName c s ∨
       n ∈ assessment_commands.map (fun p => flatFileName c s p.name)) →
      lookupFile (run_assessments c env ⟨fs, tr, cl⟩ s).1.files n =
        lookupFile (run_assessments c env ⟨fs', tr, cl⟩ s).1.files n := by
  obtain ⟨l, h1, _, _, _, _⟩ :=
    runProbes_spec c env s hw assessment_commands ⟨fs, tr, cl + 1⟩ []
  obtain ⟨l', h1', _, _, _, _⟩ :=
    runProbes_spec c env s hw assessment_commands ⟨fs', tr, cl + 1⟩ []
  obtain ⟨hA, hB, hC, hD⟩ := runProbes_indep c env s hw assessment_commands
    tr (cl + 1) [] fs fs'
  rcases hP : runProbes c env s assessment_commands ⟨fs, tr, cl + 1⟩ []
    with ⟨stP, res⟩
  rcases hP' : runProbes c env s assessment_commands ⟨fs', tr, cl + 1⟩ []
    with ⟨stP', res'⟩
  rw [hP] at h1 hA hB hC hD
  rw [hP'] at h1' hA hB hC hD
  simp only at h1 h1' hA hB hC hD
  rw [List.nil_append] at h1 h1'
  subst h1
  subst h1'
  have hl : l' = l := by
    simpa using hA.symm
  subst hl
  have heq := run_assessments_eq_of_probes c env ⟨fs, tr, cl⟩ s stP l' hP (hw _)
  have heq' := run_assessments_eq_of_probes c env ⟨fs', tr, cl⟩ s stP' l' hP' (hw _)
  rw [heq, heq']
  refine ⟨rfl, hB, hC, ?_⟩
  intro n hn
  by_cases hc : n = comprehensiveFileName c s
  · subst hc
    rw [lookupFile_setFile_self, lookupFile_setFile_self]
  · have hf : n ∈ assessment_commands.map (fun p => flatFileName c s p.name) := by
      rcases hn with h | h
      · exact absurd h hc
      · exact h
    show lookupFile (setFile stP.files _ _) n = lookupFile (setFile stP'.files _ _) n
    rw [lookupFile_setFile_ne _ _ _ _ hc, lookupFile_setFile_ne _ _ _ _ hc]
    exact (hD n).1 hf

/-! ### `collect_scenario_data` and `main` case lemmas -/

theorem collect_scenario_data_of_error (c : ClusterAssessmentCollector)
    (env : Env) (st : St) (d s scen e : String)
    (h : (run_assessments c env (deploy_manifests env st d s) scen).2 =
      Except.error e) :
    collect_scenario_data c env st d s scen =
      ((run_assessments c env (deploy_manifests env st d s) scen).1,
       Except.error e) := by
  have h' : run_assessments c env (deploy_manifests env st d s) scen =
      ((run_assessments c env (deploy_manifests env st d s) scen).1,
       Except.error e) := by
    rw [← h]
  simp only [collect_scenario_data]
  rw [h']

theorem collect_scenario_data_of_ok (c : ClusterAssessmentCollector)
    (env : Env) (st : St) (d s scen : String) (rep : ScenarioReport)
    (h : (run_assessments c env (deploy_manifests env st d s) scen).2 =
      Except.ok rep) :
    collect_scenario_data c env st d s scen =
      (cleanup_cluster env
        (run_assessments c env (deploy_manifests env st d s) scen).1,
       Except.ok rep) := by
  have h' : run_assessments c env (deploy_manifests env st d s) scen =
      ((run_assessments c env (deploy_manifests env st d s) scen).1,
       Except.ok rep) := by
    rw [← h]
  simp only [collect_scenario_data]
  rw [h']

theorem collect_scenario_data_spec (c : ClusterAssessmentCollector)
    (env : Env) (st : St) (d s scen : String)
    (hw : ∀ n, env.writeFailure n = none) :
    ∃ rep,
      (run_assessments c env (deploy_manifests env st d s) scen).2 =
        Except.ok rep ∧
      collect_scenario_data c env st d s scen =
        (cleanup_cluster env
          (run_assessments c env (deploy_manifests env st d s) scen).1,
         Except.ok rep) := by
  obtain ⟨rep, h1, _⟩ :=
    run_assessments_spec c env (deploy_manifests env st d s) scen hw
  exact ⟨rep, h1, collect_scenario_data_of_ok c env st d s scen rep h1⟩

theorem main_setup_error (env : Env) (args : Args) (e : String)
    (h : (setupPhase env).2 = Except.error e) :
    main env args =
      { exitCode := 1, finalState := (setupPhase env).1, caught := some e } := by
  have h' : setup_minikube env initialState =
      ((setupPhase env).1, Except.error e) := by
    show setupPhase env = _
    rw [← h]
  unfold main
  rw [h']

theorem main_sick_error (env : Env) (args : Args) (e : String)
    (hs : setupOk env) (hskip : args.skip_sick = false)
    (h : (sickPhase env args).2 = Except.error e) :
    main env args =
      { exitCode := 1, finalState := (sickPhase env args).1,
        caught := some e } := by
  have hS : setup_minikube env initialState =
      ((setupPhase env).1, Except.ok ()) := by
    show setupPhase env = _
    rw [← hs]
  have hC : collect_scenario_data (argsCollector args) env (setupPhase env).1
      args.sick_deployment args.sick_service "sick" =
      ((sickPhase env args).1, Except.error e) := by
    show sickPhase env args = _
    rw [← h]
  unfold main
  rw [hS, hskip]
  simp only [Bool.false_eq_true, if_false, hC, discardReport, Except.map]

/-- The value of the sick step on `main`'s success path. -/
theorem main_healthy_error (env : Env) (args : Args) (e : String)
    (hs : setupOk env) (hsick : sickOk env args)
    (hskip : args.skip_healthy = false)
    (h : (healthyPhase env args).2 = Except.error e) :
    main env args =
      { exitCode := 1, finalState := (healthyPhase env args).1,
        caught := some e } := by
  have hS : setup_minikube env initialState =
      ((setupPhase env).1, Except.ok ()) := by
    show setupPhase env = _
    rw [← hs]
  unfold main
  rw [hS]
  cases hsk : args.skip_sick with
  | true =>
    have ha : (setupPhase env).1 = afterSick env args := by
      simp [afterSick, hsk]
    have hH : collect_scenario_data (argsCollector args) env
        (setupPhase env).1 args.healthy_deployment args.healthy_service
        "healthy" = ((healthyPhase env args).1, Except.error e) := by
      rw [ha]
      show healthyPhase env args = _
      rw [← h]
    simp [hsk, hskip, hH, discardReport, Except.map]
  | false =>
    rcases hsick with hcontra | ⟨r, hr⟩
    · rw [hsk] at hcontra; cases hcontra
    · have hC : collect_scenario_data (argsCollector args) env
          (setupPhase env).1 args.sick_deployment args.sick_service "sick" =
          ((sickPhase env args).1, Except.ok r) := by
        show sickPhase env args = _
        rw [← hr]
      have ha : (sickPhase env args).1 = afterSick env args := by
        simp [afterSick, hsk]
      have hH : collect_scenario_data (argsCollector args) env
          (sickPhase env args).1 args.healthy_deployment args.healthy_service
          "healthy" = ((healthyPhase env args).1, Except.error e) := by
        rw [ha]
        show healthyPhase env args = _
        rw [← h]
      simp [hsk, hskip, hC, hH, discardReport, Except.map]

theorem main_all_ok (env : Env) (args : Args)
    (hs : setupOk env) (hsick : sickOk env args) (hh : healthyOk env args) :
    main env args =
      { exitCode := 0,
        finalState := (if args.skip_healthy then afterSick env args
                       else (healthyPhase env args).1),
        caught := none } := by
  have hS : setup_minikube env initialState =
      ((setupPhase env).1, Except.ok ()) := by
    show setupPhase env = _
    rw [← hs]
  unfold main
  rw [hS]
  cases hsk : args.skip_sick with
  | true =>
    have ha : (setupPhase env).1 = afterSick env args := by
      simp [afterSick, hsk]
    cases hsk2 : args.skip_healthy with
    | true => simp [hsk, hsk2, ← ha]
    | false =>
      rcases hh with hcontra | ⟨r, hr⟩
      · rw [hsk2] at hcontra; cases hcontra
      · have hH : collect_scenario_data (argsCollector args) env
            (setupPhase env).1 args.healthy_deployment args.healthy_service
            "healthy" = ((healthyPhase env args).1, Except.ok r) := by
          rw [ha]
          show healthyPhase env args = _
          rw [← hr]
        simp [hsk, hsk2, hH, discardReport, Except.map]
  | false =>
    rcases hsick with hcontra | ⟨r, hr⟩
    · rw [hsk] at hcontra; cases hcontra
    · have hC : collect_scenario_data (argsCollector args) env
          (setupPhase env).1 args.sick_deployment args.sick_service "sick" =
          ((sickPhase env args).1, Except.ok r) := by
        show sickPhase env args = _
        rw [← hr]
      have ha : (sickPhase env args).1 = afterSick env args := by
        simp [afterSick, hsk]
      cases hsk2 : args.skip_healthy with
      | true => simp [hsk, hsk2, hC, discardReport, Except.map, ← ha]
      | false =>
        rcases hh with hcontra2 | ⟨r2, hr2⟩
        · rw [hsk2] at hcontra2; cases hcontra2
        · have hH : collect_scenario_data (argsCollector args) env
              (sickPhase env args).1 args.healthy_deployment
              args.healthy_service "healthy" =
              ((healthyPhase env args).1, Except.ok r2) := by
            rw [ha]
            show healthyPhase env args = _
            rw [← hr2]
          simp [hsk, hsk2, hC, hH, discardReport, Except.map]

theorem main_exit_zero_iff (env : Env) (args : Args) :
    (main env args).exitCode = 0 ↔
      setupOk env ∧ sickOk env args ∧ healthyOk env args := by
  constructor
  · intro h0
    by_cases hs : setupOk env
    · by_cases hsick : sickOk env args
      · by_cases hh : healthyOk env args
        · exact ⟨hs, hsick, hh⟩
        · exfalso
          have hskip : args.skip_healthy = false := by
            cases hsk : args.skip_healthy with
            | true => exact absurd (Or.inl hsk) hh
            | false => rfl
          rcases hres : (healthyPhase env args).2 with e | r
          · rw [main_healthy_error env args e hs hsick hskip hres] at h0
            simp at h0
          · exact hh (Or.inr ⟨r, hres⟩)
      · exfalso
        have hskip : args.skip_sick = false := by
          cases hsk : args.skip_sick with
          | true => exact absurd (Or.inl hsk) hsick
          | false => rfl
        rcases hres : (sickPhase env args).2 with e | r
        · rw [main_sick_error env args e hs hskip hres] at h0
          simp at h0
        · exact hsick (Or.inr ⟨r, hres⟩)
    · exfalso
      rcases hres : (setupPhase env).2 with e | u
      · rw [main_setup_error env args e hres] at h0
        simp at h0
      · cases u
        exact hs hres
  · rintro ⟨hs, hsick, hh⟩
    rw [main_all_ok env args hs hsick hh]

/-- Does `needle` occur at the head of `hay`? -/
def charsMatch : List Char → List Char → Bool
  | [], _ => true
  | _ :: _, [] => false
  | a :: as, b :: bs => a == b && charsMatch as bs

/-- Does `needle` occur anywhere inside `hay`? -/
def charsContain (needle : List Char) : List Char → Bool
  | [] => charsMatch needle []
  | h :: t => charsMatch needle (h :: t) || charsContain needle t

/-- Substring test (used to state that no produced filename mentions
"healthy"). -/
def strContains (hay needle : String) : Bool :=
  charsContain needle.toList hay.toList

/-! ### Concrete worlds used to witness the theorems -/

/-- A world where every command succeeds, every manifest path exists,
every file write succeeds, and timestamps are distinct strings. -/
def happyEnv : Env :=
  { exec := fun _ _ => ProcOutcome.completed 0 "ok" "",
    fileExists := fun _ => true,
    writeFailure := fun _ => none,
    time := fun n => "T" ++ toString n }

/-- A world where every command times out. -/
def timeoutEnv : Env :=
  { happyEnv with exec := fun _ _ => ProcOutcome.timedOut }

/-- A world where the minikube start command exits 1 with stderr
"minikube boom" and everything else succeeds. -/
def startFailEnv : Env :=
  { happyEnv with exec := fun cmd _ =>
      if cmd = startCmd then ProcOutcome.completed 1 "" "minikube boom"
      else ProcOutcome.completed 0 "" "" }

/-- A world where every file write raises "disk full". -/
def diskFullEnv : Env :=
  { happyEnv with writeFailure := fun _ => some "disk full" }

/-- A world where no manifest path exists. -/
def noManifestEnv : Env :=
  { happyEnv with fileExists := fun _ => false }

/-- A world where only the sick service manifest path is missing. -/
def noServiceEnv : Env :=
  { happyEnv with fileExists := fun p => p != "sick-svc.yaml" }

/-- The CLI invocation of the C7 scenario: `cluster_id="test1"`, only
`--skip-healthy` set, default output directory. -/
def test1Args : Args :=
  { cluster_id := "test1", sick_deployment := "sick-deploy.yaml",
    sick_service := "sick-svc.yaml",
    healthy_deployment := "healthy-deploy.yaml",
    healthy_service := "healthy-svc.yaml",
    output_dir := "assessment_data",
    skip_sick := false, skip_healthy := true }

/-- The collector for `test1Args`. -/
def testCollector : ClusterAssessmentCollector :=
  { cluster_id := "test1", output_dir := "assessment_data" }

/-! ### The claims -/

/-- C1: for every command invocation, `run_command` returns a
well-formed result record {command, returncode, stdout, stderr,
timestamp} and never raises, for all outcomes: normal completion
reports the actual exit code (including non-zero) with captured stdout
and stderr; timeout reports returncode -1, empty stdout and stderr
exactly "Command timed out"; a launch failure reports returncode -1,
empty stdout and the stringified error. -/
theorem C1_run_command_total (env : Env) (st : St) (command : List String)
    (timeout : Nat) :
    ((run_command env st command timeout).1.command = joinTokens command) ∧
    ((run_command env st command timeout).1.timestamp = env.time st.clock) ∧
    (∀ rc out err,
      env.exec command timeout = ProcOutcome.completed rc out err →
      (run_command env st command timeout).1.returncode = rc ∧
      (run_command env st command timeout).1.stdout = out ∧
      (run_command env st command timeout).1.stderr = err) ∧
    (env.exec command timeout = ProcOutcome.timedOut →
      (run_command env st command timeout).1.returncode = -1 ∧
      (run_command env st command timeout).1.stdout = "" ∧
      (run_command env st command timeout).1.stderr = "Command timed out") ∧
    (∀ msg, env.exec command timeout = ProcOutcome.launchError msg →
      (run_command env st command timeout).1.returncode = -1 ∧
      (run_command env st command timeout).1.stdout = "" ∧
      (run_command env st command timeout).1.stderr = msg) := by
  refine ⟨by rw [run_command_fst], by rw [run_command_fst], ?_, ?_, ?_⟩
  · intro rc out err hE
    rw [run_command_fst, hE]
    exact ⟨rfl, rfl, rfl⟩
  · intro hE
    rw [run_command_fst, hE]
    exact ⟨rfl, rfl, rfl⟩
  · intro msg hE
    rw [run_command_fst, hE]
    exact ⟨rfl, rfl, rfl⟩

/-- Witness for C1: a concrete timed-out invocation yields the sentinel
record. -/
theorem C1_run_command_total_witness :
    (run_command timeoutEnv initialState ["kubectl", "get", "nodes"] 60).1.stderr =
      "Command timed out" :=
  ((C1_run_command_total timeoutEnv initialState
    ["kubectl", "get", "nodes"] 60).2.2.2.1 rfl).2.2

/-- C2: `run_assessments` executes all ten declared probes in their
fixed declaration order (even when probe commands fail — the
environment's command outcomes are arbitrary here), and the aggregated
JSON written at the end contains exactly one assessments entry per
declared probe, with all ten probe names present. -/
theorem C2_run_assessments_all_probes (c : ClusterAssessmentCollector)
    (env : Env) (st : St) (scenario_type : String)
    (hw : ∀ n, env.writeFailure n = none) :
    ∃ report,
      (run_assessments c env st scenario_type).2 = Except.ok report ∧
      (run_assessments c env st scenario_type).1.trace =
        st.trace ++ assessment_commands.map (fun p => Event.exec p.command 60) ∧
      report.assessments.map Prod.fst = assessment_commands.map ProbeSpec.name ∧
      lookupFile (run_assessments c env st scenario_type).1.files
        (comprehensiveFileName c scenario_type) =
        some (FileData.jsonReport report) ∧
      assessment_commands.map ProbeSpec.name =
        ["cluster-info", "get_nodes_-o_wide",
         "get_pods_--all-namespaces_--field-selector=status.phase!=Running",
         "top_nodes", "top_pods_--all-namespaces", "get_componentstatuses",
         "get_events_--all-namespaces_--sort-by=" ++ sq ++ ".lastTimestamp" ++ sq,
         "get_pods_--all-namespaces", "get_services_--all-namespaces",
         "get_deployments_--all-namespaces"] ∧
      (assessment_commands.map ProbeSpec.name).Nodup := by
  obtain ⟨report, h1, _, _, h4, h5, _, h7, _, _⟩ :=
    run_assessments_spec c env st scenario_type hw
  exact ⟨report, h1, h5, h4, h7, rfl, by decide⟩

/-- Witness for C2 in a fully successful world: all ten probes executed
in declaration order starting from the empty trace. -/
theorem C2_run_assessments_all_probes_witness :
    (run_assessments testCollector happyEnv initialState "sick").1.trace =
      assessment_commands.map (fun p => Event.exec p.command 60) := by
  obtain ⟨r, _, h2, _⟩ := C2_run_assessments_all_probes testCollector happyEnv
    initialState "sick" (fun _ => rfl)
  simpa using h2

/-- C3: if the cluster start command exits non-zero, `main` exits 1
with a fatal message carrying the captured stderr, and no scenario
files at all have been produced. -/
theorem C3_start_failure_aborts (env : Env) (args : Args)
    (h : outcomeReturncode (env.exec startCmd 300) ≠ 0) :
    (main env args).exitCode = 1 ∧
    (main env args).caught =
      some ("Failed to start minikube: " ++
        outcomeStderr (env.exec startCmd 300)) ∧
    (main env args).finalState.files = [] := by
  obtain ⟨hfiles, hbranch⟩ := setup_minikube_spec env initialState
  rw [if_neg h] at hbranch
  obtain ⟨htrace, herr⟩ := hbranch
  have hmain := main_setup_error env args _ herr
  refine ⟨by rw [hmain], by rw [hmain], ?_⟩
  rw [hmain]
  exact hfiles

/-- Witness for C3: the failing-start world exits 1 with no files. -/
theorem C3_start_failure_aborts_witness :
    (main startFailEnv test1Args).exitCode = 1 ∧
    (main startFailEnv test1Args).finalState.files = [] := by
  obtain ⟨h1, _, h3⟩ :=
    C3_start_failure_aborts startFailEnv test1Args (by decide)
  exact ⟨h1, h3⟩

/-- C4: `setup_minikube` performs exactly: stop, delete, start with 4
CPUs / 4096 MB / 20 GB disk under a 300-second timeout, metrics add-on
enable, a fixed 30-second sleep, then a node-listing readiness probe;
it fails with "Cluster not ready after setup" exactly when that probe
exits non-zero.  (The stop, delete and add-on results are ignored: the
trace holds regardless of their outcomes.) -/
theorem C4_setup_sequence (env : Env) (st : St)
    (h : outcomeReturncode (env.exec startCmd 300) = 0) :
    startCmd = ["minikube", "start", "--cpus=4", "--memory=4096",
      "--disk-size=20g"] ∧
    (setup_minikube env st).1.trace = st.trace ++
      [Event.exec stopCmd 60, Event.exec deleteCmd 60,
       Event.exec startCmd 300, Event.exec enableMetricsCmd 60,
       Event.sleep 30, Event.exec getNodesCmd 60] ∧
    (setup_minikube env st).2 =
      (if outcomeReturncode (env.exec getNodesCmd 60) = 0 then Except.ok ()
       else Except.error "Cluster not ready after setup") := by
  obtain ⟨_, hbranch⟩ := setup_minikube_spec env st
  rw [if_pos h] at hbranch
  exact ⟨rfl, hbranch.1, hbranch.2⟩

/-- Witness for C4: in the fully successful world, setup completes. -/
theorem C4_setup_sequence_witness :
    (setup_minikube happyEnv initialState).2 = Except.ok () := by
  obtain ⟨_, _, h3⟩ := C4_setup_sequence happyEnv initialState rfl
  rw [h3,
    if_pos (show outcomeReturncode (happyEnv.exec getNodesCmd 60) = 0 from rfl)]

/-- C5: an uncaught exception during a scenario's collection aborts the
whole run: when the sick scenario fails, `main` stops in exactly the
state of that failure (so the healthy scenario is never attempted) and
exits 1; and in general the process exits 0 exactly when setup and
every enabled scenario complete without an uncaught exception. -/
theorem C5_scenario_exception_aborts (env : Env) (args : Args) (e : String)
    (hs : setupOk env) (hskip : args.skip_sick = false)
    (herr : (sickPhase env args).2 = Except.error e) :
    main env args =
      { exitCode := 1, finalState := (sickPhase env args).1,
        caught := some e } ∧
    (∀ (env2 : Env) (args2 : Args),
      (main env2 args2).exitCode = 0 ↔
        setupOk env2 ∧ sickOk env2 args2 ∧ healthyOk env2 args2) :=
  ⟨main_sick_error env args e hs hskip herr,
   fun env2 args2 => main_exit_zero_iff env2 args2⟩

/-- Witness for C5: with every file write failing, the sick scenario
raises "disk full" and the run aborts there with exit code 1. -/
theorem C5_scenario_exception_aborts_witness :
    main diskFullEnv test1Args =
      { exitCode := 1, finalState := (sickPhase diskFullEnv test1Args).1,
        caught := some "disk full" } :=
  (C5_scenario_exception_aborts diskFullEnv test1Args "disk full"
    rfl rfl rfl).1

/-- Every event `deploy_manifests` appends is a manifest apply, the
45-second settle sleep, or the rollout-status check. -/
theorem deploy_manifests_trace_events (env : Env) (st : St) (d s : String) :
    ∀ ev ∈ (deploy_manifests env st d s).trace.drop st.trace.length,
      (∃ f, ev = Event.exec ["kubectl", "apply", "-f", f] 60) ∨
      ev = Event.sleep 45 ∨ ev = Event.exec rolloutCmd 60 := by
  obtain ⟨_, hD⟩ := deploy_manifests_spec env st d s
  intro ev hev
  rw [hD, List.drop_left] at hev
  rcases List.mem_append.mp hev with h1 | h2
  · rcases List.mem_append.mp h1 with h11 | h12
    · by_cases hc : d ≠ "" ∧ env.fileExists d
      · rw [if_pos hc] at h11
        exact Or.inl ⟨d, List.mem_singleton.mp h11⟩
      · rw [if_neg hc] at h11
        simp at h11
    · by_cases hc : s ≠ "" ∧ env.fileExists s
      · rw [if_pos hc] at h12
        exact Or.inl ⟨s, List.mem_singleton.mp h12⟩
      · rw [if_neg hc] at h12
        simp at h12
  · rcases List.mem_cons.mp h2 with h21 | h22
    · exact Or.inr (Or.inl h21)
    · exact Or.inr (Or.inr (List.mem_singleton.mp h22))

/-- C6: a manifest whose path does not exist is skipped without
raising — if the deployment path is missing its `kubectl apply` is
never invoked (the service apply, settle sleep and rollout check still
happen), and symmetrically if the service path is missing — and the
subsequent assessment run still executes and persists every probe
output plus the aggregated JSON. -/
theorem C6_missing_manifest_skipped (c : ClusterAssessmentCollector)
    (env : Env) (st : St) (d s scenario_type : String)
    (hw : ∀ n, env.writeFailure n = none) :
    (env.fileExists d = false →
      (deploy_manifests env st d s).trace = st.trace ++
        ((if s ≠ "" ∧ env.fileExists s then
            [Event.exec ["kubectl", "apply", "-f", s] 60] else []) ++
         [Event.sleep 45, Event.exec rolloutCmd 60]) ∧
      Event.exec ["kubectl", "apply", "-f", d] 60 ∉
        (deploy_manifests env st d s).trace.drop st.trace.length) ∧
    (env.fileExists s = false →
      (deploy_manifests env st d s).trace = st.trace ++
        ((if d ≠ "" ∧ env.fileExists d then
            [Event.exec ["kubectl", "apply", "-f", d] 60] else []) ++
         [Event.sleep 45, Event.exec rolloutCmd 60]) ∧
      Event.exec ["kubectl", "apply", "-f", s] 60 ∉
        (deploy_manifests env st d s).trace.drop st.trace.length) ∧
    (∃ report,
      (run_assessments c env (deploy_manifests env st d s) scenario_type).2 =
        Except.ok report ∧
      lookupFile
        (run_assessments c env (deploy_manifests env st d s) scenario_type).1.files
        (comprehensiveFileName c scenario_type) =
        some (FileData.jsonReport report) ∧
      ∀ p ∈ assessment_commands, ∃ dta,
        lookupFile
          (run_assessments c env (deploy_manifests env st d s) scenario_type).1.files
          (flatFileName c scenario_type p.name) = some dta) := by
  obtain ⟨hfiles, hD⟩ := deploy_manifests_spec env st d s
  refine ⟨?_, ?_, ?_⟩
  · intro hd
    have hd' : ¬(d ≠ "" ∧ env.fileExists d) := by simp [hd]
    have hDd := hD
    rw [if_neg hd', List.nil_append] at hDd
    refine ⟨hDd, ?_⟩
    intro hmem
    rw [hDd, List.drop_left] at hmem
    rcases List.mem_append.mp hmem with h1 | h2
    · by_cases hc : s ≠ "" ∧ env.fileExists s
      · rw [if_pos hc] at h1
        have heq := List.mem_singleton.mp h1
        have hds : d = s := by
          have := Event.exec.inj heq
          have hlist := this.1
          simpa using hlist
        rw [hds] at hd
        rw [hd] at hc
        cases hc.2
      · rw [if_neg hc] at h1
        simp at h1
    · rcases List.mem_cons.mp h2 with h21 | h22
      · cases h21
      · have := List.mem_singleton.mp h22
        simp [rolloutCmd] at this
  · intro hs
    have hs' : ¬(s ≠ "" ∧ env.fileExists s) := by simp [hs]
    have hDs := hD
    rw [if_neg hs', List.append_nil] at hDs
    refine ⟨hDs, ?_⟩
    intro hmem
    rw [hDs, List.drop_left] at hmem
    rcases List.mem_append.mp hmem with h1 | h2
    · by_cases hc : d ≠ "" ∧ env.fileExists d
      · rw [if_pos hc] at h1
        have heq := List.mem_singleton.mp h1
        have hsd : s = d := by
          have := Event.exec.inj heq
          have hlist := this.1
          simpa using hlist
        rw [hsd] at hs
        rw [hs] at hc
        cases hc.2
      · rw [if_neg hc] at h1
        simp at h1
    · rcases List.mem_cons.mp h2 with h21 | h22
      · cases h21
      · have := List.mem_singleton.mp h22
        simp [rolloutCmd] at this
  · obtain ⟨report, h1, _, _, _, _, _, h7, _, h9⟩ :=
      run_assessments_spec c env (deploy_manifests env st d s) scenario_type hw
    exact ⟨report, h1, h7, h9⟩

/-- Witness for C6: with only the service manifest missing (the
deployment exists), its apply is skipped and the sick assessment run
still completes. -/
theorem C6_missing_manifest_skipped_witness :
    (Event.exec ["kubectl", "apply", "-f", "sick-svc.yaml"] 60 ∉
      (deploy_manifests noServiceEnv initialState "sick-deploy.yaml"
        "sick-svc.yaml").trace.drop initialState.trace.length) ∧
    ∃ report,
      (run_assessments testCollector noServiceEnv
        (deploy_manifests noServiceEnv initialState "sick-deploy.yaml"
          "sick-svc.yaml") "sick").2 = Except.ok report := by
  obtain ⟨_, hserv, report, hok, _, _⟩ :=
    C6_missing_manifest_skipped testCollector noServiceEnv initialState
      "sick-deploy.yaml" "sick-svc.yaml" "sick" (fun _ => rfl)
  exact ⟨(hserv rfl).2, report, hok⟩

/-- File names present after a successful scenario collection. -/
theorem collect_scenario_data_files (c : ClusterAssessmentCollector)
    (env : Env) (st : St) (d s scen : String)
    (hw : ∀ n, env.writeFailure n = none) :
    (collect_scenario_data c env st d s scen).1.files.map Prod.fst =
      insertName (assessment_commands.foldl
        (fun ns p => insertName ns (flatFileName c scen p.name))
        (st.files.map Prod.fst)) (comprehensiveFileName c scen) := by
  obtain ⟨rep, hok, hceq⟩ := collect_scenario_data_spec c env st d s scen hw
  rw [hceq]
  show (cleanup_cluster env _).files.map Prod.fst = _
  rw [(cleanup_cluster_spec env _).1]
  obtain ⟨_, _, _, _, _, _, _, _, h8, _⟩ :=
    run_assessments_spec c env (deploy_manifests env st d s) scen hw
  rw [h8, (deploy_manifests_spec env st d s).1]

/-- C7: with cluster_id "test1" and only `--skip-healthy` set, a
successful run produces exactly the sick-scenario files — the
comprehensive JSON plus the ten per-probe flat files (newest first) —
and no file whose name contains "healthy". -/
theorem C7_skip_healthy_only_sick_files (env : Env)
    (hw : ∀ n, env.writeFailure n = none)
    (h0 : (main env test1Args).exitCode = 0) :
    (main env test1Args).finalState.files.map Prod.fst =
      ["assessment_data/test1-sick-comprehensive.json",
       "assessment_data/test1-sick-kubectl_get_deployments_--all-namespaces.txt",
       "assessment_data/test1-sick-kubectl_get_services_--all-namespaces.txt",
       "assessment_data/test1-sick-kubectl_get_pods_--all-namespaces.txt",
       "assessment_data/test1-sick-kubectl_get_events_--all-namespaces_--sort-by=" ++
         sq ++ ".lastTimestamp" ++ sq ++ ".txt",
       "assessment_data/test1-sick-kubectl_get_componentstatuses.txt",
       "assessment_data/test1-sick-kubectl_top_pods_--all-namespaces.txt",
       "assessment_data/test1-sick-kubectl_top_nodes.txt",
       "assessment_data/test1-sick-kubectl_get_pods_--all-namespaces_--field-selector=status.phase!=Running.txt",
       "assessment_data/test1-sick-kubectl_get_nodes_-o_wide.txt",
       "assessment_data/test1-sick-kubectl_cluster-info.txt"] ∧
    (∀ n ∈ (main env test1Args).finalState.files.map Prod.fst,
      strContains n "healthy" = false) := by
  obtain ⟨hs, hsick, hh⟩ := (main_exit_zero_iff env test1Args).mp h0
  have hmain := main_all_ok env test1Args hs hsick hh
  have hfin : (main env test1Args).finalState =
      (sickPhase env test1Args).1 := by
    rw [hmain]
    rfl
  have hnames : (sickPhase env test1Args).1.files.map Prod.fst =
      insertName (assessment_commands.foldl
        (fun ns p => insertName ns (flatFileName testCollector "sick" p.name))
        (((setupPhase env).1.files).map Prod.fst))
        (comprehensiveFileName testCollector "sick") :=
    collect_scenario_data_files testCollector env (setupPhase env).1
      "sick-deploy.yaml" "sick-svc.yaml" "sick" hw
  have hsf : (setupPhase env).1.files = [] :=
    (setup_minikube_spec env initialState).1
  rw [hfin, hnames, hsf]
  constructor
  · decide
  · decide

/-- Witness for C7: the fully successful world produces exactly these
eleven files. -/
theorem C7_skip_healthy_only_sick_files_witness :
    (main happyEnv test1Args).finalState.files.map Prod.fst =
      ["assessment_data/test1-sick-comprehensive.json",
       "assessment_data/test1-sick-kubectl_get_deployments_--all-namespaces.txt",
       "assessment_data/test1-sick-kubectl_get_services_--all-namespaces.txt",
       "assessment_data/test1-sick-kubectl_get_pods_--all-namespaces.txt",
       "assessment_data/test1-sick-kubectl_get_events_--all-namespaces_--sort-by=" ++
         sq ++ ".lastTimestamp" ++ sq ++ ".txt",
       "assessment_data/test1-sick-kubectl_get_componentstatuses.txt",
       "assessment_data/test1-sick-kubectl_top_pods_--all-namespaces.txt",
       "assessment_data/test1-sick-kubectl_top_nodes.txt",
       "assessment_data/test1-sick-kubectl_get_pods_--all-namespaces_--field-selector=status.phase!=Running.txt",
       "assessment_data/test1-sick-kubectl_get_nodes_-o_wide.txt",
       "assessment_data/test1-sick-kubectl_cluster-info.txt"] :=
  (C7_skip_healthy_only_sick_files happyEnv (fun _ => rfl) (by decide)).1

/-- C8: every flat file written by `save_flat_file` consists of the
five header lines (`# Command:`, `# Timestamp:`, `# Return code:`,
`# Cluster ID:`, `# Scenario:`), followed by a `--- STDOUT ---` section
holding the captured stdout, and a `--- STDERR ---` section appended if
and only if the captured stderr is non-empty. -/
theorem C8_flat_file_format (c : ClusterAssessmentCollector) (env : Env)
    (st : St) (scenario_type command_name : String) (result : CmdResult)
    (hw : env.writeFailure (flatFileName c scenario_type command_name) = none) :
    (save_flat_file c env st scenario_type command_name result).2 =
      Except.ok () ∧
    lookupFile
      (save_flat_file c env st scenario_type command_name result).1.files
      (flatFileName c scenario_type command_name) =
      some (FileData.text (
        "# Command: " ++ result.command ++ "\n" ++
        "# Timestamp: " ++ result.timestamp ++ "\n" ++
        "# Return code: " ++ toString result.returncode ++ "\n" ++
        "# Cluster ID: " ++ c.cluster_id ++ "\n" ++
        "# Scenario: " ++ scenario_type ++ "\n" ++
        "\n--- STDOUT ---\n" ++ result.stdout ++
        (if result.stderr = "" then ""
         else "\n--- STDERR ---\n" ++ result.stderr))) := by
  rw [save_flat_file_ok c env st scenario_type command_name result hw]
  refine ⟨rfl, ?_⟩
  show lookupFile (setFile st.files _ _) _ = _
  rw [lookupFile_setFile_self]
  unfold flatFileContent
  by_cases h : result.stderr = ""
  · simp [h]
  · simp [h]

/-- Witness for C8: a concrete probe result with non-empty stderr is
written successfully. -/
theorem C8_flat_file_format_witness :
    (save_flat_file testCollector happyEnv initialState "sick" "top_nodes"
      ⟨"kubectl top nodes", 1, "", "error: metrics", "T0"⟩).2 =
      Except.ok () :=
  (C8_flat_file_format testCollector happyEnv initialState "sick"
    "top_nodes" ⟨"kubectl top nodes", 1, "", "error: metrics", "T0"⟩ rfl).1

/-- C9: running the collection twice with the same cluster_id and
scenario overwrites rather than appends: the second run's outcome and
the final content stored under every output filename (the aggregated
JSON and each per-probe flat file) are exactly those of a run that
started from the first run's trace and clock but WITHOUT its files, so
the surviving content reflects only the latest run. -/
theorem C9_rerun_overwrites (c : ClusterAssessmentCollector) (env : Env)
    (st : St) (s : String) (hw : ∀ n, env.writeFailure n = none) :
    ((run_assessments c env (run_assessments c env st s).1 s).2 =
      (run_assessments c env
        ⟨st.files, (run_assessments c env st s).1.trace,
         (run_assessments c env st s).1.clock⟩ s).2) ∧
    (∃ rep2,
      (run_assessments c env (run_assessments c env st s).1 s).2 =
        Except.ok rep2 ∧
      lookupFile
        (run_assessments c env (run_assessments c env st s).1 s).1.files
        (comprehensiveFileName c s) = some (FileData.jsonReport rep2)) ∧
    (∀ n : String,
      (n = comprehensiveFileName c s ∨
       n ∈ assessment_commands.map (fun p => flatFileName c s p.name)) →
      lookupFile
        (run_assessments c env (run_assessments c env st s).1 s).1.files n =
      lookupFile
        (run_assessments c env
          ⟨st.files, (run_assessments c env st s).1.trace,
           (run_assessments c env st s).1.clock⟩ s).1.files n) := by
  obtain ⟨hA, _, _, hD⟩ := run_assessments_indep c env s hw
    (run_assessments c env st s).1.trace
    (run_assessments c env st s).1.clock
    (run_assessments c env st s).1.files st.files
  obtain ⟨rep2, h1, _, _, _, _, _, h7, _, _⟩ :=
    run_assessments_spec c env (run_assessments c env st s).1 s hw
  exact ⟨hA, ⟨rep2, h1, h7⟩, hD⟩

/-- Witness for C9 in the fully successful world. -/
theorem C9_rerun_overwrites_witness :
    (run_assessments testCollector happyEnv
      (run_assessments testCollector happyEnv initialState "sick").1
      "sick").2 =
    (run_assessments testCollector happyEnv
      ⟨initialState.files,
       (run_assessments testCollector happyEnv initialState "sick").1.trace,
       (run_assessments testCollector happyEnv initialState "sick").1.clock⟩
      "sick").2 :=
  (C9_rerun_overwrites testCollector happyEnv initialState "sick"
    (fun _ => rfl)).1

/-- All ten probe argument vectors differ from the cleanup delete-all
command. -/
theorem probe_commands_ne_deleteAll :
    ∀ p ∈ assessment_commands, p.command ≠ deleteAllCmd := by
  decide

/-- C10: if `run_assessments` raises inside `collect_scenario_data`,
the cleanup step never runs for that scenario: the call returns the
failure state as-is, and the events the scenario added contain neither
the delete-all command nor the 10-second cleanup sleep. -/
theorem C10_cleanup_skipped_on_error (c : ClusterAssessmentCollector)
    (env : Env) (st : St) (d s scen e : String)
    (herr : (run_assessments c env (deploy_manifests env st d s) scen).2 =
      Except.error e) :
    collect_scenario_data c env st d s scen =
      ((run_assessments c env (deploy_manifests env st d s) scen).1,
       Except.error e) ∧
    ∀ ev ∈ (collect_scenario_data c env st d s scen).1.trace.drop
        st.trace.length,
      ev ≠ Event.exec deleteAllCmd 60 ∧ ev ≠ Event.sleep 10 := by
  have hcoll := collect_scenario_data_of_error c env st d s scen e herr
  refine ⟨hcoll, ?_⟩
  intro ev hev
  rw [hcoll] at hev
  obtain ⟨tr', hT, hT2⟩ :=
    run_assessments_trace_sub c env (deploy_manifests env st d s) scen
  obtain ⟨_, hD⟩ := deploy_manifests_spec env st d s
  rw [hT, hD, List.append_assoc, List.drop_left] at hev
  rcases List.mem_append.mp hev with h1 | h2
  · have h1' : ev ∈ (deploy_manifests env st d s).trace.drop st.trace.length := by
      rw [hD, List.drop_left]
      exact h1
    rcases deploy_manifests_trace_events env st d s ev h1' with ⟨f, rfl⟩ | rfl | rfl
    · constructor
      · intro hc
        have := Event.exec.inj hc
        simp [deleteAllCmd] at this
      · intro hc
        cases hc
    · exact ⟨(by intro hc; cases hc), (by intro hc; simp at hc)⟩
    · constructor
      · intro hc
        have := Event.exec.inj hc
        simp [rolloutCmd, deleteAllCmd] at this
      · intro hc
        cases hc
  · obtain ⟨p, hp, rfl⟩ := hT2 ev h2
    constructor
    · intro hc
      have := Event.exec.inj hc
      exact probe_commands_ne_deleteAll p hp this.1
    · intro hc
      cases hc

/-- Witness for C10: with every write failing, the sick scenario
aborts before cleanup. -/
theorem C10_cleanup_skipped_on_error_witness :
    collect_scenario_data testCollector diskFullEnv initialState
      "sick-deploy.yaml" "sick-svc.yaml" "sick" =
      ((run_assessments testCollector diskFullEnv
          (deploy_manifests diskFullEnv initialState "sick-deploy.yaml"
            "sick-svc.yaml") "sick").1,
       Except.error "disk full") :=
  (C10_cleanup_skipped_on_error testCollector diskFullEnv initialState
    "sick-deploy.yaml" "sick-svc.yaml" "sick" "disk full" rfl).1

end K8sBot
